import Mathlib

/-!
Verification of the nsg-gui Tauri backend (`src/src-tauri/src/main.rs`).

The development shallowly embeds the backend's algorithmic core:
the showcase-mode identifier anonymizer (`anonymize_username`,
`anonymize_job_id`, `anonymize_url`), credential loading
(`load_credentials`), the credential-guarded job operations
(`list_jobs`, `get_job_status`, `submit_job`) and the results
download-and-package pipeline (`download_results`).

External collaborators (the `nsg_cli` REST client, the filesystem,
the zip writer, the Tauri event channel) are modelled as explicit
parameters recording their outcomes; machine integers are `Nat`
with explicit reduction mod `2 ^ 64` where the Rust code uses
wrapping `u64` arithmetic.
-/

/-- Model of Rust `str::split(c)` on the character list of a string:
splits on every occurrence of `c`, keeping empty segments, and always
yields at least one (possibly empty) segment. -/
def splitOnChar (c : Char) : List Char → List (List Char)
  | [] => [[]]
  | x :: xs =>
    let rest := splitOnChar c xs
    if x = c then [] :: rest
    else
      match rest with
      | [] => [[x]]
      | r :: rs => (x :: r) :: rs

/-- Model of joining segments with a single separator character
(Rust `Vec::join("/")` on the split segments). -/
def joinSep (c : Char) : List (List Char) → List Char
  | [] => []
  | [x] => x
  | x :: xs => x ++ c :: joinSep c xs

/-- UTF-8 encoding of one Unicode scalar value as its byte sequence,
each byte a `Nat < 256`; models the bytes Rust's `str::bytes()` yields
for one `char`. -/
def utf8EncodeCharNat (c : Char) : List Nat :=
  let v := c.toNat
  if v < 128 then [v]
  else if v < 2048 then [192 + v / 64, 128 + v % 64]
  else if v < 65536 then [224 + v / 4096, 128 + (v / 64) % 64, 128 + v % 64]
  else [240 + v / 262144, 128 + (v / 4096) % 64, 128 + (v / 64) % 64, 128 + v % 64]

/-- The UTF-8 bytes of a string (Rust `str::bytes()`), as `Nat`s. -/
def utf8Bytes (s : String) : List Nat :=
  (s.toList.map utf8EncodeCharNat).flatten

/-- The rolling hash of `anonymize_job_id`:
`hash = hash.wrapping_mul(31).wrapping_add(byte)` over the UTF-8 bytes,
starting from 0, with `u64` wrapping arithmetic modelled as mod `2 ^ 64`. -/
def rollingHash (bytes : List Nat) : Nat :=
  bytes.foldl (fun h b => (h * 31 + b) % (2 ^ 64)) 0

/-- The digit alphabet `"0123456789ABCDEFGHIJKLMNOPQRSTUVWXYZ"` used by
`anonymize_job_id`. -/
def base36Chars : List Char :=
  "0123456789ABCDEFGHIJKLMNOPQRSTUVWXYZ".toList

/-- The 12-round base-36 suffix loop of `anonymize_job_id`: each round
appends `chars[h % 36]` and divides `h` by 36.  The index `h % 36` is
always `< 36 = base36Chars.length`, so the `getD` default is unreachable
(it models the source's `.nth(..).unwrap()`). -/
def base36Suffix : Nat → Nat → List Char
  | 0, _ => []
  | n + 1, h => base36Chars.getD (h % 36) 'A' :: base36Suffix n (h / 36)

/-- `anonymize_username` from main.rs; `showcase` is the value of
`is_showcase_mode()` (the `SHOWCASE_MODE` environment flag). -/
def anonymize_username (showcase : Bool) (username : String) : String :=
  if showcase then "demo_user" else username

/-- `anonymize_job_id` from main.rs: in showcase mode, the literal prefix
`"NGBW-JOB-"` followed by the 12-character base-36 rendering of the
wrapping rolling hash of the input's UTF-8 bytes; otherwise the input. -/
def anonymize_job_id (showcase : Bool) (job_id : String) : String :=
  if showcase then
    "NGBW-JOB-" ++ String.mk (base36Suffix 12 (rollingHash (utf8Bytes job_id)))
  else job_id

/-- `anonymize_url` from main.rs: in showcase mode, split on `/`; with at
least 2 segments, overwrite the second-to-last with `"demo_user"` and the
last with `anonymize_job_id` of the (original) last segment, then rejoin;
otherwise return the URL unchanged. -/
def anonymize_url (showcase : Bool) (url : String) : String :=
  if showcase then
    let parts := splitOnChar '/' url.toList
    if 2 ≤ parts.length then
      let np1 := parts.set (parts.length - 2) "demo_user".toList
      let np2 :=
        match parts.getLast? with
        | some job_id =>
            np1.set (parts.length - 1) (anonymize_job_id showcase (String.mk job_id)).toList
        | none => np1
      String.mk (joinSep '/' np2)
    else url
  else url

/-- `anonymize_app_key` from main.rs. -/
def anonymize_app_key (showcase : Bool) (key : String) : String :=
  if showcase then "DEMO-APP-KEY-" ++ String.mk (List.replicate 32 'X') else key

deriving instance DecidableEq for Except

/-- `nsg_cli::Credentials`: username, password, application key. -/
structure Credentials where
  username : String
  password : String
  app_key : String
deriving DecidableEq, Repr

/-- `load_credentials` from main.rs: `Credentials::load()` is an external
collaborator whose outcome is the parameter; a load failure is mapped to
`Ok(None)`, a success to `Ok(Some creds))` with the credentials unchanged
(no anonymization is applied to the returned value). -/
def load_credentials (loadOutcome : Except String Credentials) :
    Except String (Option Credentials) :=
  match loadOutcome with
  | .ok creds => .ok (some creds)
  | .error _ => .ok none

/-- One job record as returned by the remote `client.list_jobs()`
(`nsg_cli` job summary shape consumed by main.rs). -/
structure RemoteJob where
  job_id : String
  url : String
  tool : Option String
  job_stage : Option String
  failed : Bool
  date_submitted : Option String
  date_completed : Option String
deriving DecidableEq, Repr

/-- `JobSummary` from main.rs (the anonymized projection sent to the UI). -/
structure JobSummary where
  job_id : String
  url : String
  tool : Option String
  job_stage : Option String
  failed : Bool
  date_submitted : Option String
  date_completed : Option String
deriving DecidableEq, Repr

/-- One job status record as returned by the remote
`client.get_job_status(..)`. -/
structure RemoteStatus where
  job_id : String
  job_stage : String
  failed : Bool
  date_submitted : Option String
  self_uri : String
  results_uri : Option String
deriving DecidableEq, Repr

/-- `JobDetails` from main.rs (the anonymized projection sent to the UI). -/
structure JobDetails where
  job_id : String
  job_stage : String
  failed : Bool
  date_submitted : Option String
  self_uri : String
  results_uri : Option String
deriving DecidableEq, Repr

/-- `list_jobs` from main.rs.  `creds` is the session state
(`state.credentials`); `clientNew` is the outcome of `NsgClient::new`;
`remote` the outcome of `client.list_jobs()`.  Returns the command result
paired with the number of collaborator invocations performed
(client construction and remote listing each count as one). -/
def list_jobs (showcase : Bool) (creds : Option Credentials)
    (clientNew : Except String Unit) (remote : Except String (List RemoteJob)) :
    Except String (List JobSummary) × Nat :=
  match creds with
  | none => (.error "Not connected", 0)
  | some _ =>
    match clientNew with
    | .error e => (.error ("Failed to list jobs: " ++ e), 1)
    | .ok _ =>
      match remote with
      | .error e => (.error ("Failed to list jobs: " ++ e), 2)
      | .ok jobs =>
        (.ok (jobs.map (fun j =>
          { job_id := anonymize_job_id showcase j.job_id
            url := anonymize_url showcase j.url
            tool := j.tool
            job_stage := j.job_stage
            failed := j.failed
            date_submitted := j.date_submitted
            date_completed := j.date_completed })), 2)

/-- `get_job_status` from main.rs, with the same collaborator-outcome
parameters and call counting as `list_jobs`. -/
def get_job_status (showcase : Bool) (creds : Option Credentials)
    (clientNew : Except String Unit) (remote : Except String RemoteStatus) :
    Except String JobDetails × Nat :=
  match creds with
  | none => (.error "Not connected", 0)
  | some _ =>
    match clientNew with
    | .error e => (.error ("Failed to get job status: " ++ e), 1)
    | .ok _ =>
      match remote with
      | .error e => (.error ("Failed to get job status: " ++ e), 2)
      | .ok status =>
        (.ok
          { job_id := anonymize_job_id showcase status.job_id
            job_stage := status.job_stage
            failed := status.failed
            date_submitted := status.date_submitted
            self_uri := anonymize_url showcase status.self_uri
            results_uri := status.results_uri.map (anonymize_url showcase) }, 2)

/-- `submit_job` from main.rs: returns the remote status's `job_id`
verbatim on success; same guard and call counting as the other
operations. -/
def submit_job (creds : Option Credentials)
    (clientNew : Except String Unit) (remote : Except String RemoteStatus) :
    Except String String × Nat :=
  match creds with
  | none => (.error "Not connected", 0)
  | some _ =>
    match clientNew with
    | .error e => (.error ("Failed to submit job: " ++ e), 1)
    | .ok _ =>
      match remote with
      | .error e => (.error ("Failed to submit job: " ++ e), 2)
      | .ok status => (.ok status.job_id, 2)

/-- One file fetched to the staging directory by
`client.download_results`: `fileName` is the outcome of
`path.file_name()` (`none` models a path with no final component), and
`content` the outcome of `std::fs::read(path)` on it. -/
structure FetchedFile where
  fileName : Option String
  content : Except String (List Nat)
deriving DecidableEq, Repr

/-- Events emitted to the Tauri window during `download_results`. -/
inductive GuiEvent where
  | progress (filename : String) (downloaded total : Nat)
  | complete
deriving DecidableEq, Repr

/-- Outcomes of the external collaborators touched by one
`download_results` run, in the order the code consults them. -/
structure DownloadEnv where
  /-- `std::fs::create_dir_all(&temp_dir)` -/
  tempCreate : Except String Unit
  /-- `NsgClient::new(creds)` -/
  clientNew : Except String Unit
  /-- `client.download_results(&job_url, &temp_dir, ..)` -/
  fetch : Except String (List FetchedFile)
  /-- progress events forwarded to the window by the fetch callback -/
  fetchProgress : List GuiEvent
  /-- `std::fs::create_dir_all(parent)` for the zip path's parent -/
  outCreate : Except String Unit
  /-- `File::create(&zip_path)` -/
  zipCreate : Except String Unit
  /-- `zip.finish()` -/
  zipFinish : Except String Unit
  /-- `std::fs::remove_dir_all(&temp_dir)` -/
  tempRemove : Except String Unit

/-- Observable outcome of one `download_results` run. -/
structure DownloadOutcome where
  /-- the command's returned `Result` (`Ok` holds the zip path) -/
  result : Except String String
  /-- `std::fs::create_dir_all(&temp_dir)` was attempted -/
  tempCreateAttempted : Bool
  /-- the staging (temp) directory was created during the run -/
  tempDirCreated : Bool
  /-- the staging (temp) directory was removed during the run -/
  tempDirRemoved : Bool
  /-- archive entries written (name, bytes), in write order -/
  entries : List (String × List Nat)
  /-- `zip.finish()` succeeded (archive sealed) -/
  sealed : Bool
  /-- events emitted to the window -/
  events : List GuiEvent
  /-- number of collaborator invocations on the remote client -/
  remoteCalls : Nat
deriving DecidableEq, Repr

/-- The per-file loop of `download_results`: for each fetched file take
its base filename (error `"Invalid file path"` when absent), read its
bytes (error `"Failed to read file <name>: <e>"` on failure) and append
one zip entry.  Returns the entries written before any error, and the
error if one occurred.  The zip writer itself never rejects an entry —
in particular it performs no duplicate-name check. -/
def addFilesToZip : List FetchedFile → List (String × List Nat) × Option String
  | [] => ([], none)
  | f :: fs =>
    match f.fileName with
    | none => ([], some "Invalid file path")
    | some name =>
      match f.content with
      | .error e => ([], some ("Failed to read file " ++ name ++ ": " ++ e))
      | .ok contents =>
        ((name, contents) :: (addFilesToZip fs).1, (addFilesToZip fs).2)

/-- `download_results` from main.rs.  The session state, the job URL and
output directory arguments, and the collaborator outcomes are explicit;
the returned `DownloadOutcome` records the command result together with
the observable side effects (staging-directory lifecycle, archive
entries, emitted events, collaborator call count). -/
def download_results (creds : Option Credentials) (job_url output_dir : String)
    (env : DownloadEnv) : DownloadOutcome :=
  match creds with
  | none =>
    { result := .error "Not connected", tempCreateAttempted := false
      tempDirCreated := false, tempDirRemoved := false, entries := []
      sealed := false, events := [], remoteCalls := 0 }
  | some _ =>
    match (splitOnChar '/' job_url.toList).getLast? with
    | none =>
      { result := .error "Invalid job URL", tempCreateAttempted := false
        tempDirCreated := false, tempDirRemoved := false, entries := []
        sealed := false, events := [], remoteCalls := 0 }
    | some jobIdChars =>
      let job_id := String.mk jobIdChars
      match env.tempCreate with
      | .error e =>
        { result := .error ("Failed to create temp dir: " ++ e)
          tempCreateAttempted := true, tempDirCreated := false
          tempDirRemoved := false, entries := [], sealed := false
          events := [], remoteCalls := 0 }
      | .ok _ =>
        match env.clientNew with
        | .error e =>
          { result := .error ("Failed to create client: " ++ e)
            tempCreateAttempted := true, tempDirCreated := true
            tempDirRemoved := false, entries := [], sealed := false
            events := [], remoteCalls := 1 }
        | .ok _ =>
          match env.fetch with
          | .error e =>
            { result := .error ("Failed to download results: " ++ e)
              tempCreateAttempted := true, tempDirCreated := true
              tempDirRemoved := false, entries := [], sealed := false
              events := env.fetchProgress, remoteCalls := 2 }
          | .ok files =>
            let zip_filename := "nsg_results_" ++ job_id ++ ".zip"
            let zip_path := output_dir ++ "/" ++ zip_filename
            match env.outCreate with
            | .error e =>
              { result := .error ("Failed to create output dir: " ++ e)
                tempCreateAttempted := true, tempDirCreated := true
                tempDirRemoved := false, entries := [], sealed := false
                events := env.fetchProgress, remoteCalls := 2 }
            | .ok _ =>
              match env.zipCreate with
              | .error e =>
                { result := .error ("Failed to create zip file: " ++ e)
                  tempCreateAttempted := true, tempDirCreated := true
                  tempDirRemoved := false, entries := [], sealed := false
                  events := env.fetchProgress, remoteCalls := 2 }
              | .ok _ =>
                match addFilesToZip files with
                | (written, some e) =>
                  { result := .error e
                    tempCreateAttempted := true, tempDirCreated := true
                    tempDirRemoved := false, entries := written
                    sealed := false, events := env.fetchProgress
                    remoteCalls := 2 }
                | (written, none) =>
                  match env.zipFinish with
                  | .error e =>
                    { result := .error ("Failed to finalize zip: " ++ e)
                      tempCreateAttempted := true, tempDirCreated := true
                      tempDirRemoved := false, entries := written
                      sealed := false, events := env.fetchProgress
                      remoteCalls := 2 }
                  | .ok _ =>
                    match env.tempRemove with
                    | .error e =>
                      { result := .error ("Failed to clean up temp dir: " ++ e)
                        tempCreateAttempted := true, tempDirCreated := true
                        tempDirRemoved := false, entries := written
                        sealed := true, events := env.fetchProgress
                        remoteCalls := 2 }
                    | .ok _ =>
                      { result := .ok zip_path
                        tempCreateAttempted := true, tempDirCreated := true
                        tempDirRemoved := true, entries := written
                        sealed := true
                        events := env.fetchProgress ++ [GuiEvent.complete]
                        remoteCalls := 2 }

/-! ## Helper lemmas -/

theorem base36Suffix_length (n h : Nat) : (base36Suffix n h).length = n := by
  induction n generalizing h with
  | zero => rfl
  | succ n ih => simp [base36Suffix, ih]

theorem base36Chars_length : base36Chars.length = 36 := by decide

theorem base36Chars_range :
    ∀ c ∈ base36Chars, ('0' ≤ c ∧ c ≤ '9') ∨ ('A' ≤ c ∧ c ≤ 'Z') := by decide

theorem base36Digit_mem (h : Nat) : base36Chars.getD (h % 36) 'A' ∈ base36Chars := by
  have hlt : h % 36 < base36Chars.length := by
    rw [base36Chars_length]; exact Nat.mod_lt _ (by norm_num)
  rw [List.getD_eq_getElem?_getD, List.getElem?_eq_getElem hlt]
  exact List.get_mem _ _ _

theorem base36Suffix_range (n h : Nat) :
    ∀ c ∈ base36Suffix n h, ('0' ≤ c ∧ c ≤ '9') ∨ ('A' ≤ c ∧ c ≤ 'Z') := by
  induction n generalizing h with
  | zero => intro c hc; simp [base36Suffix] at hc
  | succ n ih =>
    intro c hc
    rcases List.mem_cons.mp hc with rfl | hc
    · exact base36Chars_range _ (base36Digit_mem h)
    · exact ih _ c hc

/-! ## Claims about the identifier anonymizer -/

/-- C5: with showcase mode on, `anonymize_job_id` returns the literal
prefix `"NGBW-JOB-"` followed by the 12-character least-significant-first
base-36 rendering (alphabet 0-9A-Z) of the 64-bit wrapping rolling hash
`h = h * 31 + byte` of the input's UTF-8 bytes; in particular the output
is the prefix plus exactly 12 characters drawn from `[0-9A-Z]`.
Determinism is immediate: the embedding is a pure function of `id`. -/
theorem anonymize_job_id_showcase_form (id : String) :
    anonymize_job_id true id =
      "NGBW-JOB-" ++ String.mk (base36Suffix 12 (rollingHash (utf8Bytes id))) ∧
    ∃ suffix : List Char,
      (anonymize_job_id true id).data = "NGBW-JOB-".data ++ suffix ∧
      suffix.length = 12 ∧
      ∀ c ∈ suffix, ('0' ≤ c ∧ c ≤ '9') ∨ ('A' ≤ c ∧ c ≤ 'Z') := by
  refine ⟨rfl, base36Suffix 12 (rollingHash (utf8Bytes id)), ?_, ?_, ?_⟩
  · show ("NGBW-JOB-" ++ String.mk (base36Suffix 12 (rollingHash (utf8Bytes id)))).data = _
    rw [String.data_append]
  · exact base36Suffix_length 12 _
  · exact base36Suffix_range 12 _

/-- C6: with the showcase flag off, each anonymizer is the identity. -/
theorem anonymize_showcase_off_identity (s : String) :
    anonymize_username false s = s ∧
    anonymize_job_id false s = s ∧
    anonymize_url false s = s := ⟨rfl, rfl, rfl⟩

/-! ## Claims about credential loading and guarded operations -/

/-- C10: `load_credentials` never returns an error: whatever the outcome
of the underlying `Credentials::load()` collaborator, a failure becomes
`Ok none` and a success becomes `Ok (some creds)` with the stored
credentials returned untouched (the result is exactly the `Option`
projection of the collaborator outcome, so no anonymization is applied
regardless of showcase mode). -/
theorem load_credentials_never_errors (outcome : Except String Credentials) :
    load_credentials outcome = .ok outcome.toOption := by
  cases outcome <;> rfl

/-- C8: with no stored credentials, every job operation (`list_jobs`,
`get_job_status`, `submit_job`, `download_results`) fails immediately
with the `"Not connected"` error and performs zero collaborator
invocations; `download_results` additionally never reaches
staging-directory creation. -/
theorem job_ops_not_connected (showcase : Bool)
    (clientNew : Except String Unit)
    (remoteJobs : Except String (List RemoteJob))
    (remoteStatus : Except String RemoteStatus)
    (job_url output_dir : String) (env : DownloadEnv) :
    list_jobs showcase none clientNew remoteJobs = (.error "Not connected", 0) ∧
    get_job_status showcase none clientNew remoteStatus = (.error "Not connected", 0) ∧
    submit_job none clientNew remoteStatus = (.error "Not connected", 0) ∧
    (download_results none job_url output_dir env).result = .error "Not connected" ∧
    (download_results none job_url output_dir env).remoteCalls = 0 ∧
    (download_results none job_url output_dir env).tempCreateAttempted = false :=
  ⟨rfl, rfl, rfl, rfl, rfl, rfl⟩

theorem list_set_pair {α : Type} (front : List α) (a b x y : α) :
    ((front ++ [a, b]).set front.length x).set (front.length + 1) y =
      front ++ [x, y] := by
  induction front with
  | nil => rfl
  | cons hd tl ih => simp [ih]

/-- C7: with showcase mode on, `anonymize_url` leaves a URL with fewer
than 2 slash-separated segments unchanged; otherwise the result is the
original segments rejoined with `/` after overwriting the second-to-last
segment with `"demo_user"` and the last segment with `anonymize_job_id`
of that last segment, all earlier segments untouched. -/
theorem anonymize_url_showcase (url : String) :
    ((splitOnChar '/' url.toList).length < 2 → anonymize_url true url = url) ∧
    ∀ front secondLast lastSeg,
      splitOnChar '/' url.toList = front ++ [secondLast, lastSeg] →
      anonymize_url true url =
        String.mk (joinSep '/' (front ++ ["demo_user".toList,
          (anonymize_job_id true (String.mk lastSeg)).toList])) := by
  constructor
  · intro h
    have h2 : ¬ 2 ≤ (splitOnChar '/' url.toList).length := Nat.not_le.mpr h
    simp only [anonymize_url, if_true]
    rw [if_neg h2]
  · intro front a b heq
    have hlast : (front ++ [a, b]).getLast? = some b := by
      have hsplit : front ++ [a, b] = (front ++ [a]) ++ [b] := by simp
      rw [hsplit, List.getLast?_concat]
    simp only [anonymize_url, heq, hlast, if_true, List.length_append,
      List.length_cons, List.length_nil]
    rw [if_pos (by omega)]
    have e1 : front.length + (0 + 1 + 1) - 2 = front.length := by omega
    have e2 : front.length + (0 + 1 + 1) - 1 = front.length + 1 := by omega
    rw [e1, e2, list_set_pair]

theorem anonymize_url_showcase_witness :
    splitOnChar '/' "https://host/path/demo_user_real/JOB123".toList =
      ["https:".toList, "".toList, "host".toList, "path".toList] ++
        ["demo_user_real".toList, "JOB123".toList] ∧
    anonymize_url true "https://host/path/demo_user_real/JOB123" =
      String.mk (joinSep '/' (["https:".toList, "".toList, "host".toList, "path".toList] ++
        ["demo_user".toList,
          (anonymize_job_id true (String.mk "JOB123".toList)).toList])) :=
  ⟨by decide,
    (anonymize_url_showcase "https://host/path/demo_user_real/JOB123").2
      ["https:".toList, "".toList, "host".toList, "path".toList]
      ("demo_user_real".toList) ("JOB123".toList) (by decide)⟩

/-! ## Claims about the download-and-package pipeline -/

theorem splitOnChar_ne_nil (c : Char) (l : List Char) : splitOnChar c l ≠ [] := by
  cases l with
  | nil => simp [splitOnChar]
  | cons x xs =>
    simp only [splitOnChar]
    by_cases hx : x = c
    · simp [hx]
    · simp only [if_neg hx]
      cases splitOnChar c xs <;> simp

theorem splitOnChar_getLast_some (c : Char) (l : List Char) :
    ∃ tok, (splitOnChar c l).getLast? = some tok := by
  have h := splitOnChar_ne_nil c l
  cases hl : (splitOnChar c l).getLast? with
  | some tok => exact ⟨tok, rfl⟩
  | none => exact absurd (List.getLast?_eq_none_iff.mp hl) h

/-- A run in which the staging directory is created, the client is
constructed, and the Remote Results Fetcher then fails. -/
def envFetchFail : DownloadEnv :=
  { tempCreate := .ok (), clientNew := .ok (), fetch := .error "network down"
    fetchProgress := [], outCreate := .ok (), zipCreate := .ok ()
    zipFinish := .ok (), tempRemove := .ok () }

/-- C1 counterexample: with the staging directory successfully created
and the fetcher failing, `download_results` propagates the fetch error
but the staging directory is NOT removed — refuting the claim that
cleanup is guaranteed on the failure path. -/
theorem download_fetch_failure_counterexample :
    (download_results (some ⟨"u", "p", "k"⟩)
        "https://example.com/jobs/NGBW-JOB-123" "/out" envFetchFail).result =
      .error "Failed to download results: network down" ∧
    (download_results (some ⟨"u", "p", "k"⟩)
        "https://example.com/jobs/NGBW-JOB-123" "/out" envFetchFail).tempDirCreated = true ∧
    ¬ (download_results (some ⟨"u", "p", "k"⟩)
        "https://example.com/jobs/NGBW-JOB-123" "/out" envFetchFail).tempDirRemoved = true := by
  decide

/-- C1 amended: in every run in which the staging directory was created
and the fetcher then fails, `download_results` returns the wrapped fetch
error, but the staging directory is left in place — cleanup happens only
on the fully successful path, not on every exit path. -/
theorem download_fetch_failure_no_cleanup
    (creds : Credentials) (job_url output_dir : String) (env : DownloadEnv) (e : String)
    (h1 : env.tempCreate = .ok ()) (h2 : env.clientNew = .ok ())
    (h3 : env.fetch = .error e) :
    (download_results (some creds) job_url output_dir env).result =
      .error ("Failed to download results: " ++ e) ∧
    (download_results (some creds) job_url output_dir env).tempDirCreated = true ∧
    (download_results (some creds) job_url output_dir env).tempDirRemoved = false := by
  obtain ⟨tok, htok⟩ := splitOnChar_getLast_some '/' job_url.toList
  simp only [String.toList] at htok
  simp [download_results, htok, h1, h2, h3]

theorem download_fetch_failure_no_cleanup_witness :
    envFetchFail.tempCreate = .ok () ∧ envFetchFail.clientNew = .ok () ∧
    envFetchFail.fetch = .error "network down" ∧
    ((download_results (some ⟨"u", "p", "k"⟩) "h/NGBW-JOB-1" "/out" envFetchFail).result =
        .error ("Failed to download results: " ++ "network down") ∧
      (download_results (some ⟨"u", "p", "k"⟩) "h/NGBW-JOB-1" "/out" envFetchFail).tempDirCreated
        = true ∧
      (download_results (some ⟨"u", "p", "k"⟩) "h/NGBW-JOB-1" "/out" envFetchFail).tempDirRemoved
        = false) :=
  ⟨rfl, rfl, rfl,
    download_fetch_failure_no_cleanup ⟨"u", "p", "k"⟩ "h/NGBW-JOB-1" "/out" envFetchFail
      "network down" rfl rfl rfl⟩

theorem addFilesToZip_ok (files : List FetchedFile)
    (hwf : ∀ f ∈ files, f.fileName.isSome = true ∧ f.content.toOption.isSome = true) :
    (addFilesToZip files).2 = none ∧
    List.Forall₂ (fun (f : FetchedFile) (e : String × List Nat) =>
      f.fileName = some e.1 ∧ f.content = .ok e.2) files (addFilesToZip files).1 := by
  induction files with
  | nil => exact ⟨rfl, List.Forall₂.nil⟩
  | cons f fs ih =>
    obtain ⟨hn, hb⟩ := hwf f (List.mem_cons_self f fs)
    obtain ⟨name, hname⟩ := Option.isSome_iff_exists.mp hn
    obtain ⟨bytes, hbytes⟩ : ∃ bytes, f.content = .ok bytes := by
      cases hc : f.content with
      | ok b => exact ⟨b, rfl⟩
      | error e => rw [hc] at hb; simp [Except.toOption] at hb
    obtain ⟨htl1, htl2⟩ := ih (fun g hg => hwf g (List.mem_cons_of_mem f hg))
    refine ⟨?_, ?_⟩
    · simp [addFilesToZip, hname, hbytes, htl1]
    · simp only [addFilesToZip, hname, hbytes]
      exact List.Forall₂.cons ⟨hname, hbytes⟩ htl2

/-- An environment in which every filesystem and zip collaborator
succeeds and the fetcher returns `files`. -/
def okEnv (files : List FetchedFile) : DownloadEnv :=
  { tempCreate := .ok (), clientNew := .ok (), fetch := .ok files
    fetchProgress := [], outCreate := .ok (), zipCreate := .ok ()
    zipFinish := .ok (), tempRemove := .ok () }

/-- C2: in every fully successful run over fetched files with
pairwise-distinct base filenames, the archive receives exactly one entry
per fetched file, in fetch order, each entry's bytes identical to its
source file's bytes; the command returns the archive path and the
staging directory is removed; the completion event is emitted once after
the progress events. -/
theorem download_success_packaging
    (creds : Credentials) (job_url output_dir : String) (env : DownloadEnv)
    (files : List FetchedFile) (tok : List Char)
    (htok : (splitOnChar '/' job_url.toList).getLast? = some tok)
    (h1 : env.tempCreate = .ok ()) (h2 : env.clientNew = .ok ())
    (hf : env.fetch = .ok files)
    (h3 : env.outCreate = .ok ()) (h4 : env.zipCreate = .ok ())
    (h5 : env.zipFinish = .ok ()) (h6 : env.tempRemove = .ok ())
    (hwf : ∀ f ∈ files, f.fileName.isSome = true ∧ f.content.toOption.isSome = true)
    (_hdist : (files.map (fun f => f.fileName)).Nodup) :
    (download_results (some creds) job_url output_dir env).result =
      .ok (output_dir ++ "/" ++ ("nsg_results_" ++ String.mk tok ++ ".zip")) ∧
    (download_results (some creds) job_url output_dir env).entries.length = files.length ∧
    List.Forall₂ (fun (f : FetchedFile) (e : String × List Nat) =>
        f.fileName = some e.1 ∧ f.content = .ok e.2)
      files (download_results (some creds) job_url output_dir env).entries ∧
    (download_results (some creds) job_url output_dir env).tempDirCreated = true ∧
    (download_results (some creds) job_url output_dir env).tempDirRemoved = true ∧
    (download_results (some creds) job_url output_dir env).sealed = true ∧
    (download_results (some creds) job_url output_dir env).events =
      env.fetchProgress ++ [GuiEvent.complete] := by
  obtain ⟨herr, hrel⟩ := addFilesToZip_ok files hwf
  rcases hzip : addFilesToZip files with ⟨written, err⟩
  rw [hzip] at herr hrel
  simp only at herr hrel
  subst herr
  simp only [String.toList] at htok
  simp [download_results, htok, h1, h2, hf, h3, h4, h5, h6, hzip]
  exact ⟨hrel.length_eq.symm, hrel⟩

def fileA : FetchedFile := ⟨some "a.txt", .ok [97, 98, 99]⟩
def fileB : FetchedFile := ⟨some "b.txt", .ok [120, 121, 122]⟩

theorem download_success_packaging_witness :
    (splitOnChar '/' "https://x/NGBW-JOB-42".toList).getLast? = some "NGBW-JOB-42".toList ∧
    (okEnv [fileA, fileB]).tempCreate = .ok () ∧
    (okEnv [fileA, fileB]).fetch = .ok [fileA, fileB] ∧
    (∀ f ∈ [fileA, fileB], f.fileName.isSome = true ∧ f.content.toOption.isSome = true) ∧
    ([fileA, fileB].map (fun f => f.fileName)).Nodup ∧
    ((download_results (some ⟨"u", "p", "k"⟩) "https://x/NGBW-JOB-42" "/out"
        (okEnv [fileA, fileB])).result =
      .ok ("/out" ++ "/" ++ ("nsg_results_" ++ String.mk "NGBW-JOB-42".toList ++ ".zip")) ∧
    (download_results (some ⟨"u", "p", "k"⟩) "https://x/NGBW-JOB-42" "/out"
        (okEnv [fileA, fileB])).entries.length = [fileA, fileB].length ∧
    List.Forall₂ (fun (f : FetchedFile) (e : String × List Nat) =>
        f.fileName = some e.1 ∧ f.content = .ok e.2)
      [fileA, fileB]
      (download_results (some ⟨"u", "p", "k"⟩) "https://x/NGBW-JOB-42" "/out"
        (okEnv [fileA, fileB])).entries ∧
    (download_results (some ⟨"u", "p", "k"⟩) "https://x/NGBW-JOB-42" "/out"
        (okEnv [fileA, fileB])).tempDirCreated = true ∧
    (download_results (some ⟨"u", "p", "k"⟩) "https://x/NGBW-JOB-42" "/out"
        (okEnv [fileA, fileB])).tempDirRemoved = true ∧
    (download_results (some ⟨"u", "p", "k"⟩) "https://x/NGBW-JOB-42" "/out"
        (okEnv [fileA, fileB])).sealed = true ∧
    (download_results (some ⟨"u", "p", "k"⟩) "https://x/NGBW-JOB-42" "/out"
        (okEnv [fileA, fileB])).events =
      (okEnv [fileA, fileB]).fetchProgress ++ [GuiEvent.complete]) :=
  ⟨by decide, rfl, rfl, by decide, by decide,
    download_success_packaging ⟨"u", "p", "k"⟩ "https://x/NGBW-JOB-42" "/out"
      (okEnv [fileA, fileB]) [fileA, fileB] ("NGBW-JOB-42".toList)
      (by decide) rfl rfl rfl rfl rfl rfl rfl (by decide) (by decide)⟩

/-- Two fetched files sharing the base filename `a.txt`, with different
contents (as from different source paths). -/
def fileDup1 : FetchedFile := ⟨some "a.txt", .ok [1]⟩
def fileDup2 : FetchedFile := ⟨some "a.txt", .ok [2]⟩

/-- C3 counterexample: with two fetched files sharing the base filename
`a.txt`, `download_results` does NOT fail: it succeeds, seals the
archive, and writes BOTH files as separate entries with the same name —
refuting the claimed `DuplicateEntryName` error. -/
theorem download_duplicate_names_counterexample :
    (download_results (some ⟨"u", "p", "k"⟩) "h/J" "/o"
        (okEnv [fileDup1, fileDup2])).result = .ok "/o/nsg_results_J.zip" ∧
    (download_results (some ⟨"u", "p", "k"⟩) "h/J" "/o"
        (okEnv [fileDup1, fileDup2])).sealed = true ∧
    (download_results (some ⟨"u", "p", "k"⟩) "h/J" "/o"
        (okEnv [fileDup1, fileDup2])).entries = [("a.txt", [1]), ("a.txt", [2])] ∧
    (download_results (some ⟨"u", "p", "k"⟩) "h/J" "/o"
        (okEnv [fileDup1, fileDup2])).tempDirRemoved = true := by
  decide

/-- C3 amended: duplicate base filenames are not detected: in an
otherwise-successful run whose fetched files contain a repeated base
filename, the pipeline still succeeds and seals the archive, every file
(duplicates included) is written as its own entry in fetch order, and
the staging directory is removed — on this success path, not as
failure cleanup. -/
theorem download_duplicate_names_not_detected
    (creds : Credentials) (job_url output_dir : String) (env : DownloadEnv)
    (files : List FetchedFile) (tok : List Char)
    (htok : (splitOnChar '/' job_url.toList).getLast? = some tok)
    (h1 : env.tempCreate = .ok ()) (h2 : env.clientNew = .ok ())
    (hf : env.fetch = .ok files)
    (h3 : env.outCreate = .ok ()) (h4 : env.zipCreate = .ok ())
    (h5 : env.zipFinish = .ok ()) (h6 : env.tempRemove = .ok ())
    (hwf : ∀ f ∈ files, f.fileName.isSome = true ∧ f.content.toOption.isSome = true)
    (_hdup : ¬ (files.map (fun f => f.fileName)).Nodup) :
    (download_results (some creds) job_url output_dir env).result =
      .ok (output_dir ++ "/" ++ ("nsg_results_" ++ String.mk tok ++ ".zip")) ∧
    List.Forall₂ (fun (f : FetchedFile) (e : String × List Nat) =>
        f.fileName = some e.1 ∧ f.content = .ok e.2)
      files (download_results (some creds) job_url output_dir env).entries ∧
    (download_results (some creds) job_url output_dir env).sealed = true ∧
    (download_results (some creds) job_url output_dir env).tempDirRemoved = true := by
  obtain ⟨herr, hrel⟩ := addFilesToZip_ok files hwf
  rcases hzip : addFilesToZip files with ⟨written, err⟩
  rw [hzip] at herr hrel
  simp only at herr hrel
  subst herr
  simp only [String.toList] at htok
  simp [download_results, htok, h1, h2, hf, h3, h4, h5, h6, hzip]
  exact hrel

theorem download_duplicate_names_not_detected_witness :
    (splitOnChar '/' "h/J".toList).getLast? = some "J".toList ∧
    (∀ f ∈ [fileDup1, fileDup2],
      f.fileName.isSome = true ∧ f.content.toOption.isSome = true) ∧
    ¬ ([fileDup1, fileDup2].map (fun f => f.fileName)).Nodup ∧
    ((download_results (some ⟨"u", "p", "k"⟩) "h/J" "/o"
        (okEnv [fileDup1, fileDup2])).result =
      .ok ("/o" ++ "/" ++ ("nsg_results_" ++ String.mk "J".toList ++ ".zip")) ∧
    List.Forall₂ (fun (f : FetchedFile) (e : String × List Nat) =>
        f.fileName = some e.1 ∧ f.content = .ok e.2)
      [fileDup1, fileDup2]
      (download_results (some ⟨"u", "p", "k"⟩) "h/J" "/o"
        (okEnv [fileDup1, fileDup2])).entries ∧
    (download_results (some ⟨"u", "p", "k"⟩) "h/J" "/o"
        (okEnv [fileDup1, fileDup2])).sealed = true ∧
    (download_results (some ⟨"u", "p", "k"⟩) "h/J" "/o"
        (okEnv [fileDup1, fileDup2])).tempDirRemoved = true) :=
  ⟨by decide, by decide, by decide,
    download_duplicate_names_not_detected ⟨"u", "p", "k"⟩ "h/J" "/o"
      (okEnv [fileDup1, fileDup2]) [fileDup1, fileDup2] ("J".toList)
      (by decide) rfl rfl rfl rfl rfl rfl rfl (by decide) (by decide)⟩

/-- C4 counterexample: for a job reference ending in `NGBW-JOB-42`, the
archive produced by a successful run is
`/out/nsg_results_NGBW-JOB-42.zip`, not the claimed
`/out/results_NGBW-JOB-42.zip` — the filename prefix is
`nsg_results_`, not `results_`. -/
theorem download_archive_name_counterexample :
    (download_results (some ⟨"u", "p", "k"⟩) "https://example.com/jobs/NGBW-JOB-42"
        "/out" (okEnv [])).result = .ok "/out/nsg_results_NGBW-JOB-42.zip" ∧
    (download_results (some ⟨"u", "p", "k"⟩) "https://example.com/jobs/NGBW-JOB-42"
        "/out" (okEnv [])).result ≠ .ok "/out/results_NGBW-JOB-42.zip" := by
  decide

/-- C4 amended: for every successful run, the archive path is
`outputDirectory` joined with `nsg_results_<token>.zip`, where `<token>`
is the last `/`-separated segment of the job reference. -/
theorem download_archive_path
    (creds : Credentials) (job_url output_dir : String) (env : DownloadEnv)
    (files : List FetchedFile) (tok : List Char)
    (htok : (splitOnChar '/' job_url.toList).getLast? = some tok)
    (h1 : env.tempCreate = .ok ()) (h2 : env.clientNew = .ok ())
    (hf : env.fetch = .ok files)
    (h3 : env.outCreate = .ok ()) (h4 : env.zipCreate = .ok ())
    (h5 : env.zipFinish = .ok ()) (h6 : env.tempRemove = .ok ())
    (hwf : ∀ f ∈ files, f.fileName.isSome = true ∧ f.content.toOption.isSome = true) :
    (download_results (some creds) job_url output_dir env).result =
      .ok (output_dir ++ "/" ++ ("nsg_results_" ++ String.mk tok ++ ".zip")) := by
  obtain ⟨herr, hrel⟩ := addFilesToZip_ok files hwf
  rcases hzip : addFilesToZip files with ⟨written, err⟩
  rw [hzip] at herr
  simp only at herr
  subst herr
  simp only [String.toList] at htok
  simp [download_results, htok, h1, h2, hf, h3, h4, h5, h6, hzip]

theorem download_archive_path_witness :
    (splitOnChar '/' "https://example.com/jobs/NGBW-JOB-42".toList).getLast? =
      some "NGBW-JOB-42".toList ∧
    (download_results (some ⟨"u", "p", "k"⟩) "https://example.com/jobs/NGBW-JOB-42"
        "/out" (okEnv [])).result =
      .ok ("/out" ++ "/" ++ ("nsg_results_" ++ String.mk "NGBW-JOB-42".toList ++ ".zip")) :=
  ⟨by decide,
    download_archive_path ⟨"u", "p", "k"⟩ "https://example.com/jobs/NGBW-JOB-42" "/out"
      (okEnv []) [] ("NGBW-JOB-42".toList)
      (by decide) rfl rfl rfl rfl rfl rfl rfl (by decide)⟩

theorem head_of_append_left (p e : String) (c : Char)
    (hp : p.data.head? = some c) : (p ++ e).data.head? = some c := by
  rw [String.data_append, List.head?_append, hp]
  rfl

theorem string_append_ne_of_head (p e q : String) (c d : Char)
    (hp : p.data.head? = some c) (hq : q.data.head? = some d) (hcd : c ≠ d) :
    p ++ e ≠ q := by
  intro h
  have hd : (p ++ e).data.head? = some d := by rw [h, hq]
  rw [head_of_append_left p e c hp] at hd
  exact hcd (Option.some.inj hd)

theorem addFilesToZip_error_shape (files : List FetchedFile) (e : String)
    (h : (addFilesToZip files).2 = some e) :
    e = "Invalid file path" ∨
    ∃ name err, e = "Failed to read file " ++ name ++ ": " ++ err := by
  induction files with
  | nil => simp [addFilesToZip] at h
  | cons f fs ih =>
    cases hn : f.fileName with
    | none =>
      simp [addFilesToZip, hn] at h
      exact Or.inl h.symm
    | some name =>
      cases hc : f.content with
      | error err =>
        simp [addFilesToZip, hn, hc] at h
        exact Or.inr ⟨name, err, h.symm⟩
      | ok contents =>
        simp [addFilesToZip, hn, hc] at h
        exact ih h

theorem addFiles_error_ne_invalid_url (files : List FetchedFile) (e : String)
    (h : (addFilesToZip files).2 = some e) : e ≠ "Invalid job URL" := by
  rcases addFilesToZip_error_shape files e h with rfl | ⟨name, err, rfl⟩
  · decide
  · exact string_append_ne_of_head _ _ _ 'F' 'I'
      (head_of_append_left _ _ _ (head_of_append_left _ _ _ (by decide)))
      (by decide) (by decide)

/-- C9 counterexample: the empty job reference — the claim's own example
of a reference that "cannot be parsed" — is accepted: token extraction
yields the empty token, the staging directory IS created, and the run
completes with archive `nsg_results_.zip` instead of failing with the
`Invalid job URL` error before staging-directory creation. -/
theorem download_empty_reference_counterexample :
    (download_results (some ⟨"u", "p", "k"⟩) "" "/out" (okEnv [])).result =
      .ok "/out/nsg_results_.zip" ∧
    (download_results (some ⟨"u", "p", "k"⟩) "" "/out" (okEnv [])).result ≠
      .error "Invalid job URL" ∧
    (download_results (some ⟨"u", "p", "k"⟩) "" "/out" (okEnv [])).tempDirCreated = true := by
  decide

/-- C9 amended: token extraction from the job reference never fails —
splitting any string on `/` yields at least one (possibly empty) segment,
so the last segment always exists, the `Invalid job URL` branch is
unreachable, and every connected run proceeds to attempt
staging-directory creation. -/
theorem download_reference_parse_never_fails (job_url : String) :
    (∃ tok, (splitOnChar '/' job_url.toList).getLast? = some tok) ∧
    ∀ (creds : Credentials) (output_dir : String) (env : DownloadEnv),
      (download_results (some creds) job_url output_dir env).tempCreateAttempted = true ∧
      (download_results (some creds) job_url output_dir env).result ≠
        .error "Invalid job URL" := by
  obtain ⟨tok, htok0⟩ := splitOnChar_getLast_some '/' job_url.toList
  refine ⟨⟨tok, htok0⟩, ?_⟩
  intro creds output_dir env
  have htok : (splitOnChar '/' job_url.data).getLast? = some tok := htok0
  cases h1 : env.tempCreate with
  | error e =>
    simp [download_results, htok, h1]
    exact string_append_ne_of_head _ _ _ 'F' 'I' (by decide) (by decide) (by decide)
  | ok u1 =>
    cases h2 : env.clientNew with
    | error e =>
      simp [download_results, htok, h1, h2]
      exact string_append_ne_of_head _ _ _ 'F' 'I' (by decide) (by decide) (by decide)
    | ok u2 =>
      cases hf : env.fetch with
      | error e =>
        simp [download_results, htok, h1, h2, hf]
        exact string_append_ne_of_head _ _ _ 'F' 'I' (by decide) (by decide) (by decide)
      | ok files =>
        cases h3 : env.outCreate with
        | error e =>
          simp [download_results, htok, h1, h2, hf, h3]
          exact string_append_ne_of_head _ _ _ 'F' 'I' (by decide) (by decide) (by decide)
        | ok u3 =>
          cases h4 : env.zipCreate with
          | error e =>
            simp [download_results, htok, h1, h2, hf, h3, h4]
            exact string_append_ne_of_head _ _ _ 'F' 'I' (by decide) (by decide) (by decide)
          | ok u4 =>
            rcases hzip : addFilesToZip files with ⟨written, err⟩
            cases err with
            | some e =>
              simp [download_results, htok, h1, h2, hf, h3, h4, hzip]
              exact addFiles_error_ne_invalid_url files e (by rw [hzip])
            | none =>
              cases h5 : env.zipFinish with
              | error e =>
                simp [download_results, htok, h1, h2, hf, h3, h4, hzip, h5]
                exact string_append_ne_of_head _ _ _ 'F' 'I' (by decide) (by decide)
                  (by decide)
              | ok u5 =>
                cases h6 : env.tempRemove with
                | error e =>
                  simp [download_results, htok, h1, h2, hf, h3, h4, hzip, h5, h6]
                  exact string_append_ne_of_head _ _ _ 'F' 'I' (by decide) (by decide)
                    (by decide)
                | ok u6 =>
                  simp [download_results, htok, h1, h2, hf, h3, h4, hzip, h5, h6]
